import Mathlib

/-!
Verification of the circuit-DSL compiler: a shallow embedding, in Lean 4, of
the connectivity resolver, expression evaluator, unit normalizer, macro/loop
expander, subcircuit flattener, netlist generator (src/interpreter.py) and of
the recursive-descent parser (src/parser.py).

Modelling conventions, used throughout:
* Python dicts are modelled as association lists where insertion conses at the
  front and lookup returns the first (that is, the most recent) binding.
* Python numbers (int and float unified) are modelled as exact rationals `ℚ`;
  `float('inf')` is a distinguished value.  Transcendental float results
  (sin, exp, non-integer powers, ...) are abstracted as the opaque value
  `Value.real`; no theorem below depends on their numeric content.
* a caught Python exception is modelled by `Option`/error results exactly at
  the places the source has `try`/`except`; an uncaught exception escaping a
  modelled function is `none` at its result type.
-/

namespace CircuitDSL

/-! ## Connectivity resolver (Interpreter.build_connectivity)

`Connection.endpoints` in the Python AST is `List[Union[Terminal, Node, str]]`:
an endpoint is a `Terminal(component_name, terminal_name)`, a `Node(name,
is_ground)` (the form the parser produces), or a plain string. -/

inductive Endpoint where
  | term (componentName terminalName : String)
  | node (name : String) (isGround : Bool)
  | pstr (s : String)
deriving DecidableEq, Repr

structure Connection where
  endpoints : List Endpoint
  netName : Option String := none
deriving DecidableEq, Repr

/-- `NetlistNode` of src/interpreter.py (the `voltage` field, never set by the
resolver, is omitted). -/
structure NetNode where
  id : Nat
  name : Option String := none
  isGround : Bool := false
deriving DecidableEq, Repr

/-- The node `NetlistNode(0, 'ground', is_ground=True)` created in
`Interpreter.__init__`. -/
def groundNode : NetNode := { id := 0, name := some "ground", isGround := true }

/-- Resolver state: `node_counter`, `nodes` and `terminal_connections` of the
`Interpreter`.  The Python dict-of-dicts `terminal_connections[comp][term]` is
flattened to a map keyed by the pair. -/
structure ConnState where
  nodeCounter : Nat
  nodes : List (String × NetNode)
  terminalConnections : List ((String × String) × NetNode)
deriving DecidableEq, Repr

/-- Association-list lookup: first (most recent) binding wins, matching a
Python dict updated by assignment. -/
def lookupA {α β : Type} [DecidableEq α] : List (α × β) → α → Option β
  | [], _ => none
  | (k, v) :: rest, k2 => if k = k2 then some v else lookupA rest k2

/-- Interpreter.__init__ registers `ground`, `gnd` and `0`, all three bound to
the one ground node, and starts `node_counter` at 1. -/
def initState : ConnState :=
  { nodeCounter := 1
    nodes := [("ground", groundNode), ("gnd", groundNode), ("0", groundNode)]
    terminalConnections := [] }

/-- membership in the Python list literal `['ground', 'gnd', '0']`. -/
def isGroundName (s : String) : Bool := s == "ground" || s == "gnd" || s == "0"

/-- One disjunct of `is_ground_connection` in build_connectivity: a *string*
endpoint spelled ground (case-insensitively), or a `Node` whose `is_ground`
flag is set.  A `Node` endpoint is never tested by spelling. -/
def Endpoint.denotesGround : Endpoint → Bool
  | Endpoint.pstr s => isGroundName s.toLower
  | Endpoint.node _ g => g
  | Endpoint.term _ _ => false

def isGroundConnection (c : Connection) : Bool :=
  c.endpoints.any Endpoint.denotesGround

/-- `string_endpoints` of build_connectivity: the plain string endpoints that
are not (case-sensitively) one of `ground`/`gnd`/`0`. -/
def stringEndpointNames (c : Connection) : List String :=
  c.endpoints.filterMap fun ep =>
    match ep with
    | Endpoint.pstr s => if isGroundName s then none else some s
    | _ => none

/-- The first name of `names` already registered in `st.nodes` (the
`for ep_name in string_endpoints: if ep_name in self.nodes` loop). -/
def firstRegistered (st : ConnState) : List String → Option NetNode
  | [] => none
  | n :: rest =>
    match lookupA st.nodes n with
    | some nd => some nd
    | none => firstRegistered st rest

/-- Python truthiness of the optional net name: `if node_name:` is false both
for `None` and for the empty string. -/
def optName : Option String → Option String
  | some s => if s = "" then none else some s
  | none => none

/-- The node build_connectivity selects for a connection, given the state at
that point: ground if any endpoint denotes ground; else the node registered
under the explicit net name; else the first registered plain node-name
endpoint; else a fresh node carrying the current counter (the `getD` default
on the ground lookup is unreachable: `ground` is always registered). -/
def connTarget (st : ConnState) (c : Connection) : NetNode :=
  if isGroundConnection c then (lookupA st.nodes "ground").getD groundNode
  else
    match (optName c.netName).bind (lookupA st.nodes) with
    | some nd => nd
    | none =>
      match firstRegistered st (stringEndpointNames c) with
      | some nd => nd
      | none => { id := st.nodeCounter, name := c.netName, isGround := false }

/-- Whether build_connectivity reaches the `# Create new node` branch. -/
def allocatesNew (st : ConnState) (c : Connection) : Bool :=
  !isGroundConnection c
    && ((optName c.netName).bind (lookupA st.nodes)).isNone
    && (firstRegistered st (stringEndpointNames c)).isNone

/-- The `# Connect all endpoints to this node` loop body: a `Terminal` records
the binding in the terminal table; a plain string not spelled exactly
`ground`/`gnd`/`0` is registered as a node alias; a `Node` endpoint is left
untouched (build_connectivity has no branch for it). -/
def connectEndpoint (target : NetNode) (st : ConnState) : Endpoint → ConnState
  | Endpoint.term cn tn =>
    { st with terminalConnections := ((cn, tn), target) :: st.terminalConnections }
  | Endpoint.pstr s =>
    if isGroundName s then st else { st with nodes := (s, target) :: st.nodes }
  | Endpoint.node _ _ => st

/-- One iteration of build_connectivity's `for conn in self.program.connections`
loop: select the target node, allocate/register when new, then connect every
endpoint. -/
def processConnection (st : ConnState) (c : Connection) : ConnState :=
  let target := connTarget st c
  let st1 :=
    if allocatesNew st c then
      { st with
        nodeCounter := st.nodeCounter + 1
        nodes :=
          match optName c.netName with
          | some n => (n, target) :: st.nodes
          | none => st.nodes }
    else st
  c.endpoints.foldl (connectEndpoint target) st1

/-- `Interpreter.build_connectivity` over a connection list (its `components`
argument is ignored by the source as well). -/
def buildConnectivity (conns : List Connection) : ConnState :=
  conns.foldl processConnection initState

/-- The net ids handed out by the `# Create new node` branch across a run,
in processing order. -/
def allocatedIds : ConnState → List Connection → List Nat
  | _, [] => []
  | st, c :: cs =>
    (if allocatesNew st c then [(connTarget st c).id] else [])
      ++ allocatedIds (processConnection st c) cs

/-! ## Expression evaluator (Interpreter.evaluate_expression)

Values are Python objects: numbers (int/float unified as `ℚ`), the infinities,
nan, booleans, strings, lists, `None`, and `real` — an untracked float result
(a transcendental value, an overflow, a complex magnitude): the model records
that a value was produced without a diagnostic, not which one.  Operations
involving `real` are themselves abstracted as `real`. -/

inductive Value where
  | num (q : ℚ)
  | infty (pos : Bool)
  | nan
  | real
  | vbool (b : Bool)
  | vstr (s : String)
  | vlist (elems : List Value)
  | vnone

/-- Numeric view of a value: Python `bool` is an `int` and coerces. -/
inductive NumK where
  | fin (q : ℚ)
  | inf (pos : Bool)
  | nan
  | real
deriving DecidableEq, Repr

def Value.numK : Value → Option NumK
  | Value.num q => some (NumK.fin q)
  | Value.vbool b => some (NumK.fin (if b then 1 else 0))
  | Value.infty s => some (NumK.inf s)
  | Value.nan => some NumK.nan
  | Value.real => some NumK.real
  | _ => none

def NumK.toValue : NumK → Value
  | NumK.fin q => Value.num q
  | NumK.inf s => Value.infty s
  | NumK.nan => Value.nan
  | NumK.real => Value.real

def addK : NumK → NumK → NumK
  | NumK.nan, _ => NumK.nan
  | _, NumK.nan => NumK.nan
  | NumK.real, _ => NumK.real
  | _, NumK.real => NumK.real
  | NumK.fin a, NumK.fin b => NumK.fin (a + b)
  | NumK.inf s, NumK.inf t => if s = t then NumK.inf s else NumK.nan
  | NumK.inf s, _ => NumK.inf s
  | _, NumK.inf t => NumK.inf t

def negK : NumK → NumK
  | NumK.fin a => NumK.fin (-a)
  | NumK.inf s => NumK.inf (!s)
  | NumK.nan => NumK.nan
  | NumK.real => NumK.real

def subK (a b : NumK) : NumK := addK a (negK b)

def mulK : NumK → NumK → NumK
  | NumK.nan, _ => NumK.nan
  | _, NumK.nan => NumK.nan
  | NumK.real, _ => NumK.real
  | _, NumK.real => NumK.real
  | NumK.fin a, NumK.fin b => NumK.fin (a * b)
  | NumK.inf s, NumK.inf t => NumK.inf (s == t)
  | NumK.inf s, NumK.fin b => if b = 0 then NumK.nan else NumK.inf (s == decide (0 < b))
  | NumK.fin a, NumK.inf t => if a = 0 then NumK.nan else NumK.inf (decide (0 < a) == t)

/-- Division for a divisor already checked nonzero (signed zeros are not
modelled: finite/infinite gives plain 0). -/
def divK : NumK → NumK → NumK
  | NumK.nan, _ => NumK.nan
  | _, NumK.nan => NumK.nan
  | NumK.real, _ => NumK.real
  | _, NumK.real => NumK.real
  | NumK.fin a, NumK.fin b => NumK.fin (a / b)
  | NumK.inf s, NumK.fin b => NumK.inf (s == decide (0 ≤ b))
  | NumK.fin _, NumK.inf _ => NumK.fin 0
  | NumK.inf _, NumK.inf _ => NumK.nan

/-- Python `**`.  `none` is the `ZeroDivisionError` of `0.0 ** negative`.
Irrational and complex results, and powers of a negative-infinite or of an
infinite exponent, are abstracted as `real`. -/
def powK : NumK → NumK → Option NumK
  | NumK.nan, NumK.fin b => some (if b = 0 then NumK.fin 1 else NumK.nan)
  | NumK.nan, _ => some NumK.nan
  | _, NumK.nan => some NumK.nan
  | NumK.real, _ => some NumK.real
  | _, NumK.real => some NumK.real
  | NumK.fin a, NumK.fin b =>
    if b.den = 1 then
      if a = 0 ∧ b < 0 then none else some (NumK.fin (a ^ b.num))
    else if a = 0 then (if 0 < b then some (NumK.fin 0) else none)
    else some NumK.real
  | NumK.inf s, NumK.fin b =>
    if b = 0 then some (NumK.fin 1)
    else if s then some (if 0 < b then NumK.inf true else NumK.fin 0)
    else some NumK.real
  | _, NumK.inf _ => some NumK.real

mutual
/-- Python `==` (never raises).  Equality against the untracked `real` is
modelled as false; `nan` compares unequal even to itself. -/
def pyEq : Value → Value → Bool
  | Value.nan, _ => false
  | _, Value.nan => false
  | Value.num a, Value.num b => a == b
  | Value.num a, Value.vbool b => a == (if b then 1 else 0)
  | Value.vbool a, Value.num b => (if a then (1 : ℚ) else 0) == b
  | Value.vbool a, Value.vbool b => a == b
  | Value.infty a, Value.infty b => a == b
  | Value.vstr a, Value.vstr b => a == b
  | Value.vlist a, Value.vlist b => pyEqList a b
  | Value.vnone, Value.vnone => true
  | _, _ => false

def pyEqList : List Value → List Value → Bool
  | [], [] => true
  | a :: restA, b :: restB => pyEq a b && pyEqList restA restB
  | _, _ => false
end

def pyTruthy : Value → Bool
  | Value.num q => q != 0
  | Value.infty _ => true
  | Value.nan => true
  | Value.real => true
  | Value.vbool b => b
  | Value.vstr s => s != ""
  | Value.vlist l => !l.isEmpty
  | Value.vnone => false

/-- Lift a numeric-kind operation to values; `none` is a `TypeError`
(caught by the source's `except`). -/
def pyArith (f : NumK → NumK → NumK) (a b : Value) : Option Value :=
  match a.numK, b.numK with
  | some x, some y => some (f x y).toValue
  | _, _ => none

/-- Python `+`: string and list concatenation, else numeric (sequence
repetition by `*` and other exotic overloads are not modelled: no program in
scope multiplies a sequence). -/
def pyAddV : Value → Value → Option Value
  | Value.vstr a, Value.vstr b => some (Value.vstr (a ++ b))
  | Value.vlist a, Value.vlist b => some (Value.vlist (a ++ b))
  | a, b => pyArith addK a b

def pySubV (a b : Value) : Option Value := pyArith subK a b

def pyMulV (a b : Value) : Option Value := pyArith mulK a b

def pyDivV (a b : Value) : Option Value :=
  match a.numK, b.numK with
  | some x, some y =>
    match y with
    | NumK.fin q => if q = 0 then none else some (divK x y).toValue
    | _ => some (divK x y).toValue
  | _, _ => none

def pyPowV (a b : Value) : Option Value :=
  match a.numK, b.numK with
  | some x, some y => (powK x y).map NumK.toValue
  | _, _ => none

def ltK : NumK → NumK → Bool
  | NumK.nan, _ => false
  | _, NumK.nan => false
  | NumK.real, _ => false
  | _, NumK.real => false
  | NumK.fin a, NumK.fin b => decide (a < b)
  | NumK.inf s, NumK.inf t => !s && t
  | NumK.inf s, NumK.fin _ => !s
  | NumK.fin _, NumK.inf t => t

def leK : NumK → NumK → Bool
  | NumK.nan, _ => false
  | _, NumK.nan => false
  | NumK.real, _ => false
  | _, NumK.real => false
  | NumK.fin a, NumK.fin b => decide (a ≤ b)
  | NumK.inf s, NumK.inf t => !s || t
  | NumK.inf s, NumK.fin _ => !s
  | NumK.fin _, NumK.inf t => t

/-- Python `<` (none = TypeError on unordered types; list-list lexicographic
comparison is unused and not modelled). -/
def pyLt : Value → Value → Option Bool
  | Value.vstr a, Value.vstr b => some (decide (a < b))
  | a, b =>
    match a.numK, b.numK with
    | some x, some y => some (ltK x y)
    | _, _ => none

def pyLe : Value → Value → Option Bool
  | Value.vstr a, Value.vstr b => some (decide (a ≤ b))
  | a, b =>
    match a.numK, b.numK with
    | some x, some y => some (leK x y)
    | _, _ => none

/-- The `'||'` parallel-resistance operator: either operand equal to 0 gives
0; otherwise `(a*b)/(a+b)`, whose division raises when `a+b == 0`. -/
def pyParallel (l r : Value) : Option Value :=
  if pyEq l (Value.num 0) || pyEq r (Value.num 0) then some (Value.num 0)
  else
    match pyMulV l r with
    | none => none
    | some p =>
      match pyAddV l r with
      | none => none
      | some s => if pyEq s (Value.num 0) then none else pyDivV p s

/-- `Interpreter._apply_binary_op`.  The whole body sits in a `try`: a raised
`TypeError`-like failure (modelled `none`) appends a diagnostic (its
exception text is abbreviated) and yields 0. -/
def applyBinaryOp (op : String) (l r : Value) (errs : List String) :
    Value × List String :=
  let exc : Option Value → Value × List String := fun ov =>
    match ov with
    | some v => (v, errs)
    | none => (Value.num 0, errs ++ ["Error in binary operation"])
  if op = "+" then exc (pyAddV l r)
  else if op = "-" then exc (pySubV l r)
  else if op = "*" then exc (pyMulV l r)
  else if op = "/" then
    if pyEq r (Value.num 0) then (Value.infty true, errs ++ ["Division by zero"])
    else exc (pyDivV l r)
  else if op = "**" || op = "^" then exc (pyPowV l r)
  else if op = "||" then exc (pyParallel l r)
  else if op = "&&" then (if pyTruthy l then r else l, errs)
  else if op = "==" then (Value.vbool (pyEq l r), errs)
  else if op = "!=" then (Value.vbool (!pyEq l r), errs)
  else if op = "<" then exc (Option.map Value.vbool (pyLt l r))
  else if op = ">" then exc (Option.map Value.vbool (pyLt r l))
  else if op = "<=" then exc (Option.map Value.vbool (pyLe l r))
  else if op = ">=" then exc (Option.map Value.vbool (pyLe r l))
  else (Value.num 0, errs ++ ["Unknown binary operator: " ++ op])

def pyNegV (v : Value) : Option Value := v.numK.map fun k => (negK k).toValue

/-- Python unary `+` (numeric identity; coerces bools like Python does). -/
def pyPosV (v : Value) : Option Value := v.numK.map NumK.toValue

def absK : NumK → NumK
  | NumK.fin a => NumK.fin |a|
  | NumK.inf _ => NumK.inf true
  | NumK.nan => NumK.nan
  | NumK.real => NumK.real

def pyAbsV (v : Value) : Option Value := v.numK.map fun k => (absK k).toValue

/-- `Interpreter._apply_unary_op`: note that both the exception handler and
the unknown-operator branch return the *operand*, not 0. -/
def applyUnaryOp (op : String) (v : Value) (errs : List String) :
    Value × List String :=
  let exc : Option Value → Value × List String := fun ov =>
    match ov with
    | some w => (w, errs)
    | none => (v, errs ++ ["Error in unary operation"])
  if op = "-" then exc (pyNegV v)
  else if op = "+" then exc (pyPosV v)
  else if op = "!" then (Value.vbool (!pyTruthy v), errs)
  else if op = "sqrt" then exc (pyPowV v (Value.num (1 / 2)))
  else if op = "abs" then exc (pyAbsV v)
  else (v, errs ++ ["Unknown unary operator: " ++ op])

/-- Python `int()` truncation toward zero. -/
def ratTrunc (q : ℚ) : Int := if 0 ≤ q then ⌊q⌋ else ⌈q⌉

/-- `int(x)` for range arguments (`none` raises: infinities, nan, non-numbers;
numeric strings are out of scope and not modelled). -/
def pyToInt : Value → Option Int
  | Value.num q => some (ratTrunc q)
  | Value.vbool b => some (if b then 1 else 0)
  | _ => none

/-- `range(start, stop, step)` materialized; step 0 raises. -/
def rangeK (start stop step : Int) : Option (List Int) :=
  if step = 0 then none
  else
    let cnt : Int :=
      if 0 < step then (if stop ≤ start then 0 else (stop - start - 1) / step + 1)
      else (if start ≤ stop then 0 else (start - stop - 1) / (-step) + 1)
    some ((List.range cnt.toNat).map fun i => start + step * i)

/-- A one-argument math builtin on the numeric view; `none` raises
(`ValueError` on domain violations, `IndexError`/`TypeError` upstream).
Only the rational-exact points 0 and 1 are tracked; other finite results
(and possible overflows) are the abstracted `real`. -/
def mathFun1 (name : String) (k : NumK) : Option NumK :=
  if name = "sin" || name = "tan" then
    match k with
    | NumK.fin a => some (if a = 0 then NumK.fin 0 else NumK.real)
    | NumK.inf _ => none
    | NumK.nan => some NumK.nan
    | NumK.real => some NumK.real
  else if name = "cos" then
    match k with
    | NumK.fin a => some (if a = 0 then NumK.fin 1 else NumK.real)
    | NumK.inf _ => none
    | NumK.nan => some NumK.nan
    | NumK.real => some NumK.real
  else if name = "log" || name = "log10" then
    match k with
    | NumK.fin a => if a ≤ 0 then none else some (if a = 1 then NumK.fin 0 else NumK.real)
    | NumK.inf s => if s then some (NumK.inf true) else none
    | NumK.nan => some NumK.nan
    | NumK.real => some NumK.real
  else if name = "exp" then
    match k with
    | NumK.fin a => some (if a = 0 then NumK.fin 1 else NumK.real)
    | NumK.inf s => some (if s then NumK.inf true else NumK.fin 0)
    | NumK.nan => some NumK.nan
    | NumK.real => some NumK.real
  else if name = "sqrt" then
    match k with
    | NumK.fin a =>
      if a < 0 then none
      else some (if a = 0 then NumK.fin 0 else if a = 1 then NumK.fin 1 else NumK.real)
    | NumK.inf s => if s then some (NumK.inf true) else none
    | NumK.nan => some NumK.nan
    | NumK.real => some NumK.real
  else if name = "abs" then some (absK k)
  else none

/-- `args[0]` then the math call: empty argument list raises IndexError,
a non-numeric argument a TypeError. -/
def math1 (name : String) (args : List Value) : Option Value :=
  match args with
  | [] => none
  | a :: _ => a.numK.bind fun k => (mathFun1 name k).map NumK.toValue

def pyMinFold : Value → List Value → Option Value
  | m, [] => some m
  | m, a :: rest =>
    match pyLt a m with
    | some true => pyMinFold a rest
    | some false => pyMinFold m rest
    | none => none

/-- Python `min(args)`: first minimal element; empty raises. -/
def pyMin : List Value → Option Value
  | [] => none
  | a :: rest => pyMinFold a rest

def pyMaxFold : Value → List Value → Option Value
  | m, [] => some m
  | m, a :: rest =>
    match pyLt m a with
    | some true => pyMaxFold a rest
    | some false => pyMaxFold m rest
    | none => none

def pyMax : List Value → Option Value
  | [] => none
  | a :: rest => pyMaxFold a rest

/-- `Interpreter._call_function`: builtins, an unknown name appends a
diagnostic and yields 0, a raising builtin appends a diagnostic (text
abbreviated) and yields 0.  `range` with 0 or more than 3 arguments falls off
the end of its branch and returns Python `None`. -/
def callFunction (name : String) (args : List Value) (errs : List String) :
    Value × List String :=
  let exc : Option Value → Value × List String := fun ov =>
    match ov with
    | some v => (v, errs)
    | none => (Value.num 0, errs ++ ["Error calling function " ++ name])
  let intsToList : List Int → Value := fun l => Value.vlist (l.map fun i => Value.num i)
  if name = "sin" || name = "cos" || name = "tan" || name = "log" || name = "log10"
      || name = "exp" || name = "sqrt" || name = "abs" then
    exc (math1 name args)
  else if name = "min" then exc (pyMin args)
  else if name = "max" then exc (pyMax args)
  else if name = "range" then
    exc (match args with
      | [a] => (pyToInt a).bind fun s => (rangeK 0 s 1).map intsToList
      | [a, b] =>
        (pyToInt a).bind fun s => (pyToInt b).bind fun t => (rangeK s t 1).map intsToList
      | [a, b, c] =>
        (pyToInt a).bind fun s => (pyToInt b).bind fun t => (pyToInt c).bind fun u =>
          (rangeK s t u).map intsToList
      | _ => some Value.vnone)
  else (Value.num 0, errs ++ ["Unknown function: " ++ name])

/-! ## Expression AST and evaluation -/

/-- The value stored in a `Literal` AST node (int/float unified as ℚ). -/
inductive LitVal where
  | num (q : ℚ)
  | lstr (s : String)
deriving DecidableEq, Repr

/-- The `annotations` dict of an AST node, restricted to the two keys the
unit-conversion pass writes. -/
structure Annots where
  siValue : Option LitVal := none
  originalUnit : Option String := none
deriving DecidableEq, Repr

inductive ExprNode where
  | lit (value : LitVal) (unit : Option String) (annots : Annots)
  | ident (name : String)
  | binop (left : ExprNode) (op : String) (right : ExprNode)
  | unop (op : String) (operand : ExprNode)
  | call (name : String) (args : List ExprNode)
  | arr (elements : List ExprNode)

/-- Shorthand for a plain numeric literal with empty annotations. -/
def litN (q : ℚ) : ExprNode := ExprNode.lit (LitVal.num q) none {}

def litToValue : LitVal → Value
  | LitVal.num q => Value.num q
  | LitVal.lstr s => Value.vstr s

/-- `InterpreterContext`: a frame of variables with an optional parent. -/
inductive Ctx where
  | mk (vars : List (String × Value)) (parent : Option Ctx)

def Ctx.get : Ctx → String → Option Value
  | Ctx.mk vars none, n => lookupA vars n
  | Ctx.mk vars (some p), n =>
    match lookupA vars n with
    | some v => some v
    | none => Ctx.get p n

def Ctx.set : Ctx → String → Value → Ctx
  | Ctx.mk vars parent, n, v => Ctx.mk ((n, v) :: vars) parent

def emptyCtx : Ctx := Ctx.mk [] none

mutual
/-- `Interpreter.evaluate_expression`: total state-passing evaluation, errors
threaded through; the only mutation is the growing error list. -/
def evalExpr (ctx : Ctx) : ExprNode → List String → Value × List String
  | ExprNode.lit v _ annots, errs =>
    (match annots.siValue with
     | some sv => litToValue sv
     | none => litToValue v, errs)
  | ExprNode.ident n, errs =>
    (match ctx.get n with
     | some v => (v, errs)
     | none => (Value.num 0, errs ++ ["Undefined identifier: " ++ n]))
  | ExprNode.binop l op r, errs =>
    let lv := evalExpr ctx l errs
    let rv := evalExpr ctx r lv.2
    applyBinaryOp op lv.1 rv.1 rv.2
  | ExprNode.unop op e, errs =>
    let v := evalExpr ctx e errs
    applyUnaryOp op v.1 v.2
  | ExprNode.call n args, errs =>
    let vs := evalArgs ctx args errs
    callFunction n vs.1 vs.2
  | ExprNode.arr elems, errs =>
    let vs := evalArgs ctx elems errs
    (Value.vlist vs.1, vs.2)

def evalArgs (ctx : Ctx) : List ExprNode → List String → List Value × List String
  | [], errs => ([], errs)
  | e :: rest, errs =>
    let v := evalExpr ctx e errs
    let vs := evalArgs ctx rest v.2
    (v.1 :: vs.1, vs.2)
end

/-! ## Unit normalization (UnitConversionVisitor.convert_literal) -/

/-- The SI-prefix table `UNIT_MULTIPLIERS`, keyed by the first character of
the unit part (the source's two-character mojibake key for micro can never
equal a single character and is dead). -/
def unitMultiplier (c : Char) : Option ℚ :=
  if c = 'f' then some (1 / 10 ^ 15)
  else if c = 'p' then some (1 / 10 ^ 12)
  else if c = 'n' then some (1 / 10 ^ 9)
  else if c = 'u' then some (1 / 10 ^ 6)
  else if c = 'm' then some (1 / 10 ^ 3)
  else if c = 'k' then some (10 ^ 3)
  else if c = 'K' then some (10 ^ 3)
  else if c = 'M' then some (10 ^ 6)
  else if c = 'G' then some (10 ^ 9)
  else if c = 'T' then some (10 ^ 12)
  else none

def isAsciiLetter (c : Char) : Bool := ('a' ≤ c && c ≤ 'z') || ('A' ≤ c && c ≤ 'Z')

def isPySpace (c : Char) : Bool :=
  c = ' ' || c = '\t' || c = '\n' || c = '\r' || c = '\x0b' || c = '\x0c'

/-- Python `str.strip()` on the character list. -/
def stripChars (cs : List Char) : List Char :=
  ((cs.dropWhile isPySpace).reverse.dropWhile isPySpace).reverse

/-- Split off the maximal trailing `[a-zA-Z]*` run: the unique way the
anchored regex `^(-?\d*\.?\d+)([a-zA-Z]*)$` can divide a matching string. -/
def splitLetterSuffix (cs : List Char) : List Char × List Char :=
  let rev := cs.reverse
  ((rev.dropWhile isAsciiLetter).reverse, (rev.takeWhile isAsciiLetter).reverse)

/-- Whether the character list matches `-?\d*\.?\d+` exactly: optional sign,
digits with at most one dot, ending in a digit. -/
def matchesNumber (cs : List Char) : Bool :=
  let body := match cs with
    | '-' :: rest => rest
    | _ => cs
  !body.isEmpty
    && body.all (fun c => c.isDigit || c == '.')
    && (body.filter (fun c => c == '.')).length ≤ 1
    && (match body.getLast? with
        | some c => c.isDigit
        | none => false)

def digitsToNat (cs : List Char) : Nat := cs.foldl (fun n c => n * 10 + (c.toNat - 48)) 0

def parseDecimalPos (cs : List Char) : ℚ :=
  let intPart := cs.takeWhile Char.isDigit
  let rest := cs.drop intPart.length
  match rest with
  | '.' :: frac => (digitsToNat intPart : ℚ) + (digitsToNat frac : ℚ) / 10 ^ frac.length
  | _ => (digitsToNat intPart : ℚ)

/-- `float(number_part)` on a string matching the regex above. -/
def parseDecimal (cs : List Char) : ℚ :=
  match cs with
  | '-' :: rest => -parseDecimalPos rest
  | _ => parseDecimalPos cs

/-- `UnitConversionVisitor.convert_literal` as a transformer of the
annotations: numeric literals pass through (`si_value = float(value)`); a
string split by the regex gets the prefix multiplier applied and the unit
recorded; a non-matching string becomes its own `si_value`. -/
def convertLiteral (v : LitVal) (a : Annots) : Annots :=
  match v with
  | LitVal.num q => { a with siValue := some (LitVal.num q) }
  | LitVal.lstr s =>
    let cs := stripChars s.toList
    let parts := splitLetterSuffix cs
    if matchesNumber parts.1 then
      let base := parseDecimal parts.1
      let value :=
        match parts.2 with
        | c :: _ =>
          match unitMultiplier c with
          | some m => base * m
          | none => base
        | [] => base
      { a with siValue := some (LitVal.num value),
               originalUnit := some (String.mk parts.2) }
    else { a with siValue := some (LitVal.lstr s) }

/-! ## Program structure (ast_nodes.py, the fields the pipeline reads)

`imports` and `analyses` are carried by the Python `Program` but never
consulted by any operation embedded here and are omitted.  The `attributes`
dicts, likewise only ever defaulted, are omitted. -/

structure VarDecl where
  name : String
  value : ExprNode

structure CompDecl where
  typeName : String
  instanceName : String
  positionalParams : List ExprNode := []
  namedParams : List (String × ExprNode) := []
  terminals : Option (List String) := none

structure SubInst where
  subcircuitName : String
  instanceName : String
  portConnections : List (String × String) := []
  parameterOverrides : List (String × ExprNode) := []

/-- An element of a Python component/body list: `ComponentDeclaration`,
`Connection`, `MacroInvocation`, `ForLoop` or `SubcircuitInstance`. -/
inductive BodyNode where
  | comp (c : CompDecl)
  | conn (c : Connection)
  | minv (name : String) (args : List ExprNode)
  | floop (var : String) (iterable : ExprNode) (body : List BodyNode)
  | inst (s : SubInst)

structure MacroDef where
  name : String
  parameters : List String
  body : List BodyNode

structure Subckt where
  name : String
  ports : List String
  components : List BodyNode := []
  connections : List Connection := []

structure Program where
  varDecls : List VarDecl := []
  macros : List MacroDef := []
  subcircuits : List Subckt := []
  components : List BodyNode := []
  subcircuitInstances : List SubInst := []
  connections : List Connection := []

/-- `Interpreter.process_variables`: evaluate each declaration and bind it in
the top-level context. -/
def processVariables : List VarDecl → Ctx → List String → Ctx × List String
  | [], ctx, errs => (ctx, errs)
  | v :: rest, ctx, errs =>
    let r := evalExpr ctx v.value errs
    processVariables rest (ctx.set v.name r.1) r.2

/-! ## Macro and loop expansion (Interpreter.expand_macros)

The recursion through macro bodies is not structural (a macro body may invoke
another macro); `fuel` is the embedding's termination artifact, decremented on
every call, and `none` models the Python original running forever.  All
theorems below instantiate it with enough fuel. -/

/-- Bind `zip(macro_def.parameters, node.arguments)` into a fresh child frame,
evaluating each argument in the invoking context. -/
def bindArgs (outer : Ctx) : List (String × ExprNode) → List (String × Value) →
    List String → List (String × Value) × List String
  | [], acc, errs => (acc, errs)
  | (p, a) :: rest, acc, errs =>
    let r := evalExpr outer a errs
    bindArgs outer rest ((p, r.1) :: acc) r.2

mutual
/-- `expand_node_list` of Interpreter.expand_macros. -/
def expandNodeList : ℕ → List (String × MacroDef) → Ctx → List BodyNode →
    List String → Option (List BodyNode × List String)
  | 0, _, _, _, _ => none
  | _ + 1, _, _, [], errs => some ([], errs)
  | fuel + 1, defs, ctx, node :: rest, errs =>
    match node with
    | BodyNode.minv name args =>
      match lookupA defs name with
      | some mdef =>
        let bound := bindArgs ctx (mdef.parameters.zip args) [] errs
        let mctx := Ctx.mk bound.1 (some ctx)
        match expandNodeList fuel defs mctx mdef.body bound.2 with
        | none => none
        | some r =>
          match expandNodeList fuel defs ctx rest r.2 with
          | none => none
          | some r2 => some (r.1 ++ r2.1, r2.2)
      | none =>
        expandNodeList fuel defs ctx rest (errs ++ ["Undefined macro: " ++ name])
    | BodyNode.floop v iter body =>
      let it := evalExpr ctx iter errs
      match it.1 with
      | Value.vlist vals =>
        match expandLoop fuel defs ctx v vals body it.2 with
        | none => none
        | some r =>
          match expandNodeList fuel defs ctx rest r.2 with
          | none => none
          | some r2 => some (r.1 ++ r2.1, r2.2)
      | _ =>
        expandNodeList fuel defs ctx rest (it.2 ++ ["For loop iterable must be a list"])
    | other =>
      match expandNodeList fuel defs ctx rest errs with
      | none => none
      | some r => some (other :: r.1, r.2)

/-- The per-element loop of the `ForLoop` branch: a child frame binding the
loop variable, body expanded under it, frame discarded. -/
def expandLoop : ℕ → List (String × MacroDef) → Ctx → String → List Value →
    List BodyNode → List String → Option (List BodyNode × List String)
  | 0, _, _, _, _, _, _ => none
  | _ + 1, _, _, _, [], _, errs => some ([], errs)
  | fuel + 1, defs, ctx, v, val :: vals, body, errs =>
    let lctx := Ctx.mk [(v, val)] (some ctx)
    match expandNodeList fuel defs lctx body errs with
    | none => none
    | some r =>
      match expandLoop fuel defs ctx v vals body r.2 with
      | none => none
      | some r2 => some (r.1 ++ r2.1, r2.2)
end

/-- `Interpreter.expand_macros`.  The dict comprehension over `program.macros`
lets a later definition shadow an earlier one (modelled by consing, so lookup
finds the latest); the `all_components.remove(...)` loop deletes exactly the
`MacroInvocation` elements while keeping the order of the rest, i.e. a
filter.  Note the top-level invocations are removed *before* expansion: only
invocations nested in loop or macro bodies are ever expanded. -/
def expandMacros (fuel : ℕ) (p : Program) (ctx : Ctx) (errs : List String) :
    Option (List BodyNode × List String) :=
  let defs := p.macros.foldl (fun m d => (d.name, d) :: m) []
  let allComponents := p.components.filter fun n =>
    match n with
    | BodyNode.minv _ _ => false
    | _ => true
  expandNodeList fuel defs ctx allComponents errs

/-! ## Netlist formatting (Interpreter.format_component, generate_netlist) -/

/-- `NetlistNode.__str__`: `"0"` for ground, else the id. -/
def netNodeStr (n : NetNode) : String := if n.isGround then "0" else toString n.id

/-- `str(value)` on an evaluator value.  Python's decimal float rendering is
abstracted (exact rationals print in Lean's notation); no theorem depends on
the digits. -/
def pyStr : Value → String
  | Value.num q => toString q
  | Value.infty s => if s then "inf" else "-inf"
  | Value.nan => "nan"
  | Value.real => "<float>"
  | Value.vbool b => if b then "True" else "False"
  | Value.vstr s => s
  | Value.vlist _ => "<list>"
  | Value.vnone => "None"

def evalParams (ctx : Ctx) : List ExprNode → List String → List String × List String
  | [], errs => ([], errs)
  | p :: rest, errs =>
    let r := evalExpr ctx p errs
    let rs := evalParams ctx rest r.2
    (pyStr r.1 :: rs.1, rs.2)

def evalNamedParams (ctx : Ctx) : List (String × ExprNode) → List String →
    String × List String
  | [], errs => ("", errs)
  | (n, e) :: rest, errs =>
    let r := evalExpr ctx e errs
    let rs := evalNamedParams ctx rest r.2
    (" " ++ n ++ "=" ++ pyStr r.1 ++ rs.1, rs.2)

/-- `self.nodes['ground']` (total by the always-registered ground binding). -/
def groundOf (st : ConnState) : NetNode := (lookupA st.nodes "ground").getD groundNode

/-- `terminals.get(tn)` for one component instance. -/
def termGet (st : ConnState) (inst tn : String) : Option NetNode :=
  lookupA st.terminalConnections (inst, tn)

/-- `terminals.get(k1, terminals.get(k2, dflt))`. -/
def termGet2 (st : ConnState) (inst k1 k2 : String) (dflt : NetNode) : NetNode :=
  (termGet st inst k1).getD ((termGet st inst k2).getD dflt)

/-- The distinct terminal names bound for an instance: `len(terminals)` of the
per-component dict. -/
def distinctTermNames (st : ConnState) (inst : String) : List String :=
  (st.terminalConnections.filterMap fun e =>
    if e.1.1 = inst then some e.1.2 else none).dedup

/-- `Interpreter.format_component` on a `ComponentDeclaration`; `none` is a
raised exception (only the subcircuit branch raises, through `terminal.name`
on a plain string).  Parameter evaluation may append diagnostics. -/
def formatComponent (st : ConnState) (ctx : Ctx) (c : CompDecl)
    (errs : List String) : Option String × List String :=
  let pv := evalParams ctx c.positionalParams errs
  let np := evalNamedParams ctx c.namedParams pv.2
  let paramValues := pv.1
  let namedStr := np.1
  let errs2 := np.2
  let g := groundOf st
  let inst := c.instanceName
  let t2 : String → String → NetNode := fun k1 k2 => termGet2 st inst k1 k2 g
  let ct := c.typeName.toLower
  if ct = "r" ∨ ct = "resistor" then
    (some (inst ++ " " ++ netNodeStr (t2 "1" "positive") ++ " "
      ++ netNodeStr (t2 "2" "negative") ++ " "
      ++ (paramValues.head?.getD "1k") ++ namedStr), errs2)
  else if ct = "c" ∨ ct = "capacitor" then
    (some (inst ++ " " ++ netNodeStr (t2 "1" "positive") ++ " "
      ++ netNodeStr (t2 "2" "negative") ++ " "
      ++ (paramValues.head?.getD "1u") ++ namedStr), errs2)
  else if ct = "l" ∨ ct = "inductor" then
    (some (inst ++ " " ++ netNodeStr (t2 "1" "positive") ++ " "
      ++ netNodeStr (t2 "2" "negative") ++ " "
      ++ (paramValues.head?.getD "1m") ++ namedStr), errs2)
  else if ct = "v" ∨ ct = "vsource" ∨ ct = "voltage_source" then
    let np2 := netNodeStr (t2 "1" "positive")
    let nn2 := netNodeStr (t2 "2" "negative")
    (some (match paramValues with
      | [dc] => inst ++ " " ++ np2 ++ " " ++ nn2 ++ " DC " ++ dc ++ namedStr
      | dc :: ac :: _ =>
        inst ++ " " ++ np2 ++ " " ++ nn2 ++ " DC " ++ dc ++ " AC " ++ ac ++ namedStr
      | [] => inst ++ " " ++ np2 ++ " " ++ nn2 ++ " DC 1" ++ namedStr), errs2)
  else if ct = "i" ∨ ct = "isource" ∨ ct = "current_source" then
    let np2 := netNodeStr (t2 "1" "positive")
    let nn2 := netNodeStr (t2 "2" "negative")
    (some (match paramValues with
      | [dc] => inst ++ " " ++ np2 ++ " " ++ nn2 ++ " DC " ++ dc ++ namedStr
      | dc :: ac :: _ =>
        inst ++ " " ++ np2 ++ " " ++ nn2 ++ " DC " ++ dc ++ " AC " ++ ac ++ namedStr
      | [] => inst ++ " " ++ np2 ++ " " ++ nn2 ++ " DC 1m" ++ namedStr), errs2)
  else if ct = "d" ∨ ct = "diode" then
    (some (inst ++ " " ++ netNodeStr (t2 "1" "anode") ++ " "
      ++ netNodeStr (t2 "2" "cathode") ++ " "
      ++ (paramValues.head?.getD "DIODE_DEFAULT") ++ namedStr), errs2)
  else if ct = "q" ∨ ct = "bjt" ∨ ct = "transistor" then
    let nc := t2 "1" "collector"
    let nb := t2 "2" "base"
    let ne := t2 "3" "emitter"
    let ns := t2 "4" "substrate"
    let model := paramValues.head?.getD "BJT_DEFAULT"
    (some (if ns ≠ g then
        inst ++ " " ++ netNodeStr nc ++ " " ++ netNodeStr nb ++ " " ++ netNodeStr ne
          ++ " " ++ netNodeStr ns ++ " " ++ model ++ namedStr
      else
        inst ++ " " ++ netNodeStr nc ++ " " ++ netNodeStr nb ++ " " ++ netNodeStr ne
          ++ " " ++ model ++ namedStr), errs2)
  else if ct = "m" ∨ ct = "mosfet" then
    let nd := t2 "1" "drain"
    let ng := t2 "2" "gate"
    let ns := t2 "3" "source"
    let nb := (termGet st inst "4").getD ((termGet st inst "bulk").getD
      ((termGet st inst "substrate").getD ns))
    let model := paramValues.head?.getD "MOSFET_DEFAULT"
    (some (inst ++ " " ++ netNodeStr nd ++ " " ++ netNodeStr ng ++ " " ++ netNodeStr ns
      ++ " " ++ netNodeStr nb ++ " " ++ model ++ namedStr), errs2)
  else if ct = "opamp" ∨ ct = "op_amp" then
    let nplus := (termGet st inst "1").getD ((termGet st inst "non_inverting").getD
      ((termGet st inst "+").getD g))
    let nminus := (termGet st inst "2").getD ((termGet st inst "inverting").getD
      ((termGet st inst "-").getD g))
    let nout := t2 "3" "output"
    let model := paramValues.head?.getD "OPAMP_DEFAULT"
    let nvdd := (termGet st inst "vdd").orElse fun _ =>
      (termGet st inst "vcc").orElse fun _ => termGet st inst "vpos"
    let nvss := (termGet st inst "vss").orElse fun _ =>
      (termGet st inst "vee").orElse fun _ => termGet st inst "vneg"
    (some (match nvdd, nvss with
      | some vdd, some vss =>
        inst ++ " " ++ netNodeStr nplus ++ " " ++ netNodeStr nminus ++ " "
          ++ netNodeStr vdd ++ " " ++ netNodeStr vss ++ " " ++ netNodeStr nout
          ++ " " ++ model ++ namedStr
      | _, _ =>
        inst ++ " " ++ netNodeStr nplus ++ " " ++ netNodeStr nminus ++ " "
          ++ netNodeStr nout ++ " " ++ model ++ namedStr), errs2)
  else if ct = "x" ∨ ct = "subcircuit" ∨ ct = "subckt" then
    match c.terminals.getD [] with
    | [] =>
      let subcktName := paramValues.head?.getD c.typeName
      (some (inst ++ "  " ++ subcktName ++ namedStr), errs2)
    | _ :: _ => (none, errs2)
  else
    let names := distinctTermNames st inst
    let termList :=
      if names.isEmpty then [netNodeStr g, netNodeStr g]
      else (List.range names.length).map fun i => netNodeStr ((termGet st inst (toString (i + 1))).getD g)
    let paramsStr := String.intercalate " " paramValues
    (some (inst ++ " " ++ String.intercalate " " termList ++ " " ++ paramsStr ++ namedStr),
      errs2)

/-- The `for comp in self.program.components` formatting loop of
generate_netlist.  A caught exception appends the per-component error (its
exception text abbreviated); a `MacroInvocation` or `ForLoop` node makes the
handler itself raise (`comp.instance_name` does not exist), which escapes:
`none`. -/
def formatAll (st : ConnState) (ctx : Ctx) : List BodyNode → List String →
    Option (List String × List String)
  | [], errs => some ([], errs)
  | BodyNode.comp c :: rest, errs =>
    let r := formatComponent st ctx c errs
    let errs2 :=
      match r.1 with
      | some _ => r.2
      | none => r.2 ++ ["Error formatting component " ++ c.instanceName]
    (formatAll st ctx rest errs2).map fun r2 =>
      ((match r.1 with
        | some l => [l]
        | none => []) ++ r2.1, r2.2)
  | BodyNode.inst s :: rest, errs =>
    (formatAll st ctx rest
      (errs ++ ["Error formatting component " ++ s.instanceName])).map fun r2 => r2
  | BodyNode.conn _ :: _, _ => none
  | BodyNode.minv _ _ :: _, _ => none
  | BodyNode.floop _ _ _ :: _, _ => none

/-- `Interpreter.generate_netlist`: process variables, run the expansion
(whose result is discarded — only its diagnostics survive), build
connectivity from the *original* connections, format the *original*
component list, then try each subcircuit instance (whose formatting always
raises and is caught, appending a diagnostic).  `none` is an uncaught
exception escaping the call. -/
def generateNetlist (fuel : ℕ) (p : Program) : Option (List String × List String) :=
  let pv := processVariables p.varDecls emptyCtx []
  match expandMacros fuel p pv.1 pv.2 with
  | none => none
  | some res =>
    let st := buildConnectivity p.connections
    match formatAll st pv.1 p.components res.2 with
    | none => none
    | some r =>
      some (r.1, r.2 ++ p.subcircuitInstances.map
        fun s => "Error formatting subcircuit " ++ s.instanceName)

/-! ## Subcircuit flattening (SubcircuitFlattener)

`instance_counter` is incremented by the source but never read; it is
omitted.  The recursion through nested instances is fueled (a cyclic template
would not terminate); `none` additionally models the `KeyError` raised by
`instance.port_connections[i]` — an integer index into a string-keyed dict —
whenever the template has ports and the instance has any port connection. -/

/-- Endpoint/net-name renaming of one template connection: a port name maps to
its target, ground spellings stay, other plain names get the instance prefix;
`Node` endpoints are untouched (the source has no branch for them). -/
def flattenConn (pfx : String) (portMap : List (String × String))
    (cn : Connection) : Connection :=
  { endpoints := cn.endpoints.map fun ep =>
      match ep with
      | Endpoint.term c t => Endpoint.term (pfx ++ c) t
      | Endpoint.pstr s =>
        (match lookupA portMap s with
         | some t => Endpoint.pstr t
         | none => if isGroundName s then Endpoint.pstr s else Endpoint.pstr (pfx ++ s))
      | Endpoint.node n g => Endpoint.node n g
    netName :=
      match optName cn.netName with
      | some n =>
        (match lookupA portMap n with
         | some t => some t
         | none => some (pfx ++ n))
      | none => cn.netName }

mutual
/-- `flatten_subcircuit_instance`. -/
def flattenInstance : ℕ → List (String × Subckt) → SubInst →
    Option (List BodyNode × List Connection)
  | 0, _, _ => none
  | fuel + 1, subs, inst =>
    match lookupA subs inst.subcircuitName with
    | none => some ([], [])
    | some sk =>
      let pfx := inst.instanceName ++ "_"
      if sk.ports ≠ [] ∧ inst.portConnections ≠ [] then none
      else
        let portMap : List (String × String) :=
          sk.ports.enum.map fun e => (e.2, pfx ++ "UNCONNECTED_" ++ toString e.1)
        match flattenComps fuel subs pfx sk.components with
        | none => none
        | some comps => some (comps, sk.connections.map (flattenConn pfx portMap))

/-- The component loop: rename with the instance prefix; recursively flatten a
nested instance, whose own connections the source then drops ("Handle nested
connections separately"); other node kinds pass through. -/
def flattenComps : ℕ → List (String × Subckt) → String → List BodyNode →
    Option (List BodyNode)
  | 0, _, _, _ => none
  | _ + 1, _, _, [] => some []
  | fuel + 1, subs, pfx, n :: rest =>
    match n with
    | BodyNode.comp c =>
      (flattenComps fuel subs pfx rest).map
        fun r => BodyNode.comp { c with instanceName := pfx ++ c.instanceName } :: r
    | BodyNode.inst s =>
      match flattenInstance fuel subs { s with instanceName := pfx ++ s.instanceName } with
      | none => none
      | some r => (flattenComps fuel subs pfx rest).map fun r2 => r.1 ++ r2
    | other =>
      (flattenComps fuel subs pfx rest).map fun r => other :: r
end

/-- The component loop of `flatten_program`: instances are flattened in
place, everything else is kept; the flattened connections accumulate in
instance order. -/
def flattenTop (fuel : ℕ) (subs : List (String × Subckt)) :
    List BodyNode → Option (List BodyNode × List Connection)
  | [] => some ([], [])
  | n :: rest =>
    match n with
    | BodyNode.inst s =>
      match flattenInstance fuel subs s with
      | none => none
      | some r =>
        (flattenTop fuel subs rest).map fun r2 => (r.1 ++ r2.1, r.2 ++ r2.2)
    | other =>
      (flattenTop fuel subs rest).map fun r2 => (other :: r2.1, r2.2)

/-- `SubcircuitFlattener.flatten_program`: flatten the component list, append
the program's own connections after the flattened ones, and rebuild the
program (dropping the `subcircuit_instances` field, which the source lets
default to empty). -/
def flattenProgram (fuel : ℕ) (subs : List (String × Subckt)) (p : Program) :
    Option Program :=
  match flattenTop fuel subs p.components with
  | none => none
  | some r =>
    some { varDecls := p.varDecls
           macros := p.macros
           subcircuits := p.subcircuits
           components := r.1
           subcircuitInstances := []
           connections := r.2 ++ p.connections }

/-! ## Parser (src/parser.py)

Tokens carry kind and text (source locations only feed error text and are
omitted); `nval` carries `float(value)` for a NUMBER token alongside its
text.  `Parser.consume(token_type, message)` checks only the token *type* —
its second parameter is the error message, not an expected value — and the
model mirrors that.  Error payloads: `perr` is a raised `ParserError`;
`crash` is the `AttributeError` raised when `parse_primary_expression`
evaluates `TokenType.BOOLEAN`, a member the lexer's `TokenType` does not
have; `fuelOut` is the embedding's recursion-fuel artifact (never reached by
the theorems below). -/

inductive TokType where
  | RESISTOR
  | CAPACITOR
  | INDUCTOR
  | VOLTAGE_SOURCE
  | CURRENT_SOURCE
  | AC_SOURCE
  | AMMETER
  | CONNECT
  | SUBCIRCUIT
  | SIMULATE
  | GROUND
  | IDENTIFIER
  | NUMBER
  | SYMBOL
  | OPERATOR
  | UNIT
  | KEYWORD
  | STRING
  | EOF
deriving DecidableEq, Repr

structure Token where
  type : TokType
  value : String
  nval : ℚ := 0
deriving DecidableEq, Repr

def tk (t : TokType) (v : String) : Token := { type := t, value := v }

def tkNum (q : ℚ) (v : String) : Token := { type := TokType.NUMBER, value := v, nval := q }

/-- `self.current` (an exhausted stream reads as the EOF sentinel). -/
def cur : List Token → Token
  | [] => tk TokType.EOF ""
  | t :: _ => t

/-- `self.peek()` (offset 1). -/
def peek1 : List Token → Token
  | _ :: t :: _ => t
  | _ => tk TokType.EOF ""

inductive ParseFail where
  | perr (msg : String)
  | crash
  | fuelOut
deriving DecidableEq, Repr

/-- `Parser.consume`: type-only check, advance on success. -/
def consumeT (t : TokType) (msg : String) (ts : List Token) :
    Except ParseFail (Token × List Token) :=
  if (cur ts).type = t then Except.ok (cur ts, ts.tail)
  else Except.error (ParseFail.perr msg)

mutual
def parseExpr : ℕ → List Token → Except ParseFail (ExprNode × List Token)
  | 0, _ => Except.error ParseFail.fuelOut
  | fuel + 1, ts => parseOrE fuel ts

def parseOrE : ℕ → List Token → Except ParseFail (ExprNode × List Token)
  | 0, _ => Except.error ParseFail.fuelOut
  | fuel + 1, ts => do
    let l ← parseAndE fuel ts
    parseOrRest fuel l.1 l.2

def parseOrRest : ℕ → ExprNode → List Token → Except ParseFail (ExprNode × List Token)
  | 0, _, _ => Except.error ParseFail.fuelOut
  | fuel + 1, left, ts =>
    let t := cur ts
    if t.type = TokType.OPERATOR ∧ (t.value = "||" ∨ t.value = "|") then do
      let r ← parseAndE fuel ts.tail
      parseOrRest fuel (ExprNode.binop left t.value r.1) r.2
    else Except.ok (left, ts)

def parseAndE : ℕ → List Token → Except ParseFail (ExprNode × List Token)
  | 0, _ => Except.error ParseFail.fuelOut
  | fuel + 1, ts => do
    let l ← parseEqE fuel ts
    parseAndRest fuel l.1 l.2

def parseAndRest : ℕ → ExprNode → List Token → Except ParseFail (ExprNode × List Token)
  | 0, _, _ => Except.error ParseFail.fuelOut
  | fuel + 1, left, ts =>
    let t := cur ts
    if t.type = TokType.OPERATOR ∧ (t.value = "&&" ∨ t.value = "&") then do
      let r ← parseEqE fuel ts.tail
      parseAndRest fuel (ExprNode.binop left t.value r.1) r.2
    else Except.ok (left, ts)

def parseEqE : ℕ → List Token → Except ParseFail (ExprNode × List Token)
  | 0, _ => Except.error ParseFail.fuelOut
  | fuel + 1, ts => do
    let l ← parseRelE fuel ts
    parseEqRest fuel l.1 l.2

def parseEqRest : ℕ → ExprNode → List Token → Except ParseFail (ExprNode × List Token)
  | 0, _, _ => Except.error ParseFail.fuelOut
  | fuel + 1, left, ts =>
    let t := cur ts
    if t.type = TokType.OPERATOR ∧ (t.value = "==" ∨ t.value = "!=") then do
      let r ← parseRelE fuel ts.tail
      parseEqRest fuel (ExprNode.binop left t.value r.1) r.2
    else Except.ok (left, ts)

def parseRelE : ℕ → List Token → Except ParseFail (ExprNode × List Token)
  | 0, _ => Except.error ParseFail.fuelOut
  | fuel + 1, ts => do
    let l ← parseAddE fuel ts
    parseRelRest fuel l.1 l.2

def parseRelRest : ℕ → ExprNode → List Token → Except ParseFail (ExprNode × List Token)
  | 0, _, _ => Except.error ParseFail.fuelOut
  | fuel + 1, left, ts =>
    let t := cur ts
    if t.type = TokType.OPERATOR ∧
        (t.value = "<" ∨ t.value = ">" ∨ t.value = "<=" ∨ t.value = ">=") then do
      let r ← parseAddE fuel ts.tail
      parseRelRest fuel (ExprNode.binop left t.value r.1) r.2
    else Except.ok (left, ts)

def parseAddE : ℕ → List Token → Except ParseFail (ExprNode × List Token)
  | 0, _ => Except.error ParseFail.fuelOut
  | fuel + 1, ts => do
    let l ← parseMulE fuel ts
    parseAddRest fuel l.1 l.2

def parseAddRest : ℕ → ExprNode → List Token → Except ParseFail (ExprNode × List Token)
  | 0, _, _ => Except.error ParseFail.fuelOut
  | fuel + 1, left, ts =>
    let t := cur ts
    if t.type = TokType.OPERATOR ∧ (t.value = "+" ∨ t.value = "-") then do
      let r ← parseMulE fuel ts.tail
      parseAddRest fuel (ExprNode.binop left t.value r.1) r.2
    else Except.ok (left, ts)

def parseMulE : ℕ → List Token → Except ParseFail (ExprNode × List Token)
  | 0, _ => Except.error ParseFail.fuelOut
  | fuel + 1, ts => do
    let l ← parsePowerE fuel ts
    parseMulRest fuel l.1 l.2

def parseMulRest : ℕ → ExprNode → List Token → Except ParseFail (ExprNode × List Token)
  | 0, _, _ => Except.error ParseFail.fuelOut
  | fuel + 1, left, ts =>
    let t := cur ts
    if t.type = TokType.OPERATOR ∧ (t.value = "*" ∨ t.value = "/" ∨ t.value = "%") then do
      let r ← parsePowerE fuel ts.tail
      parseMulRest fuel (ExprNode.binop left t.value r.1) r.2
    else Except.ok (left, ts)

/-- Power is right-associative: a single `if`, recursing on the right. -/
def parsePowerE : ℕ → List Token → Except ParseFail (ExprNode × List Token)
  | 0, _ => Except.error ParseFail.fuelOut
  | fuel + 1, ts => do
    let l ← parseUnaryE fuel ts
    let t := cur l.2
    if t.type = TokType.OPERATOR ∧ t.value = "**" then do
      let r ← parsePowerE fuel l.2.tail
      Except.ok (ExprNode.binop l.1 "**" r.1, r.2)
    else Except.ok l

def parseUnaryE : ℕ → List Token → Except ParseFail (ExprNode × List Token)
  | 0, _ => Except.error ParseFail.fuelOut
  | fuel + 1, ts =>
    let t := cur ts
    if t.type = TokType.OPERATOR ∧ (t.value = "-" ∨ t.value = "+" ∨ t.value = "!") then do
      let r ← parseUnaryE fuel ts.tail
      Except.ok (ExprNode.unop t.value r.1, r.2)
    else parsePrimaryE fuel ts

/-- `parse_primary_expression`: number (with optional unit), unit, string,
identifier, parenthesized expression; any other token reaches the
`TokenType.BOOLEAN` test and crashes. -/
def parsePrimaryE : ℕ → List Token → Except ParseFail (ExprNode × List Token)
  | 0, _ => Except.error ParseFail.fuelOut
  | fuel + 1, ts =>
    let t := cur ts
    if t.type = TokType.NUMBER then
      let ts2 := ts.tail
      if (cur ts2).type = TokType.UNIT then
        Except.ok (ExprNode.lit (LitVal.num t.nval) (some (cur ts2).value) {}, ts2.tail)
      else Except.ok (ExprNode.lit (LitVal.num t.nval) none {}, ts2)
    else if t.type = TokType.UNIT then
      Except.ok (ExprNode.lit (LitVal.lstr t.value) none {}, ts.tail)
    else if t.type = TokType.STRING then
      Except.ok (ExprNode.lit (LitVal.lstr t.value) none {}, ts.tail)
    else if t.type = TokType.IDENTIFIER then
      Except.ok (ExprNode.ident t.value, ts.tail)
    else if t.type = TokType.SYMBOL ∧ t.value = "(" then do
      let r ← parseExpr fuel ts.tail
      let r2 ← consumeT TokType.SYMBOL "Expected SYMBOL" r.2
      Except.ok (r.1, r2.2)
    else Except.error ParseFail.crash
end

/-- The component-type tokens `parse_component_declaration` accepts. -/
def componentTypeToks : List TokType :=
  [TokType.RESISTOR, TokType.CAPACITOR, TokType.INDUCTOR, TokType.VOLTAGE_SOURCE,
   TokType.CURRENT_SOURCE, TokType.AC_SOURCE, TokType.AMMETER]

mutual
/-- The parameter loop of `parse_component_declaration`: a parameter whose
first token is an IDENTIFIER is parsed as named and must be followed by a
SYMBOL `=`; anything else is a positional expression.  The loop exits only on
a `)` symbol. -/
def parseParams : ℕ → List Token → List ExprNode → List (String × ExprNode) →
    Except ParseFail (List ExprNode × List (String × ExprNode) × List Token)
  | 0, _, _, _ => Except.error ParseFail.fuelOut
  | fuel + 1, ts, pos, named =>
    let t := cur ts
    if t.type = TokType.SYMBOL ∧ t.value = ")" then Except.ok (pos, named, ts)
    else if t.type = TokType.IDENTIFIER then
      let ts2 := ts.tail
      if (cur ts2).type = TokType.SYMBOL ∧ (cur ts2).value = "=" then do
        let r ← parseExpr fuel ts2.tail
        parseParamsSep fuel r.2 pos (named ++ [(t.value, r.1)])
      else Except.error (ParseFail.perr "Expected '=' after parameter name")
    else do
      let r ← parseExpr fuel ts
      parseParamsSep fuel r.2 (pos ++ [r.1]) named

/-- The comma/close check after a parameter: a non-SYMBOL token falls through
and the loop body runs again without a separator, as the source's `while`
does. -/
def parseParamsSep : ℕ → List Token → List ExprNode → List (String × ExprNode) →
    Except ParseFail (List ExprNode × List (String × ExprNode) × List Token)
  | 0, _, _, _ => Except.error ParseFail.fuelOut
  | fuel + 1, ts, pos, named =>
    let t := cur ts
    if t.type = TokType.SYMBOL then
      if t.value = ")" then Except.ok (pos, named, ts)
      else if t.value = "," then parseParams fuel ts.tail pos named
      else Except.error (ParseFail.perr "Expected ',' or ')'")
    else parseParams fuel ts pos named
end

/-- `Parser.parse_component_declaration`. -/
def parseComponentDeclaration (fuel : ℕ) (ts : List Token) :
    Except ParseFail (CompDecl × List Token) :=
  let t := cur ts
  if componentTypeToks.contains t.type then
    let typeName := t.value
    let ts1 := ts.tail
    if (cur ts1).type = TokType.IDENTIFIER then
      let instName := (cur ts1).value
      let ts2 := ts1.tail
      let afterParams : Except ParseFail (List ExprNode × List (String × ExprNode) × List Token) :=
        if (cur ts2).type = TokType.SYMBOL ∧ (cur ts2).value = "(" then
          match parseParams fuel ts2.tail [] [] with
          | Except.error e => Except.error e
          | Except.ok r => Except.ok (r.1, r.2.1, r.2.2.tail)
        else Except.ok ([], [], ts2)
      match afterParams with
      | Except.error e => Except.error e
      | Except.ok r =>
        let ts3 := r.2.2
        if (cur ts3).type = TokType.SYMBOL ∧ (cur ts3).value = ";" then
          let terminals : Option (List String) :=
            if typeName = "VoltageSource" ∨ typeName = "CurrentSource"
                ∨ typeName = "ACSource" then some ["positive", "negative"]
            else if typeName = "Resistor" ∨ typeName = "Capacitor"
                ∨ typeName = "Inductor" then some ["positive", "negative"]
            else if typeName = "Ammeter" then some ["positive", "negative"]
            else none
          Except.ok ({ typeName := typeName, instanceName := instName,
                       positionalParams := r.1, namedParams := r.2.1,
                       terminals := terminals }, ts3.tail)
        else Except.error (ParseFail.perr "Expected ';' after component declaration")
    else Except.error (ParseFail.perr "Expected component name")
  else Except.error (ParseFail.perr "Expected component type")

mutual
/-- The endpoint loop of `parse_connection`: a GROUND token yields the
flagged ground node; an IDENTIFIER followed by a `.` symbol yields a
`Terminal` of exactly two segments; a bare IDENTIFIER yields an unflagged
`Node`.  The loop exits only on a `)` symbol. -/
def parseEndpoints : ℕ → List Token → List Endpoint →
    Except ParseFail (List Endpoint × List Token)
  | 0, _, _ => Except.error ParseFail.fuelOut
  | fuel + 1, ts, acc =>
    let t := cur ts
    if t.type = TokType.SYMBOL ∧ t.value = ")" then Except.ok (acc, ts)
    else if t.type = TokType.GROUND then
      parseEndpointSep fuel ts.tail (acc ++ [Endpoint.node "ground" true])
    else if t.type = TokType.IDENTIFIER then
      if (peek1 ts).type = TokType.SYMBOL ∧ (peek1 ts).value = "." then
        let ts1 := ts.tail.tail
        if (cur ts1).type = TokType.IDENTIFIER then
          parseEndpointSep fuel ts1.tail (acc ++ [Endpoint.term t.value (cur ts1).value])
        else Except.error (ParseFail.perr "Expected IDENTIFIER")
      else parseEndpointSep fuel ts.tail (acc ++ [Endpoint.node t.value false])
    else Except.error (ParseFail.perr "Unexpected endpoint type")

def parseEndpointSep : ℕ → List Token → List Endpoint →
    Except ParseFail (List Endpoint × List Token)
  | 0, _, _ => Except.error ParseFail.fuelOut
  | fuel + 1, ts, acc =>
    let t := cur ts
    if t.type = TokType.SYMBOL ∧ t.value = "," then parseEndpoints fuel ts.tail acc
    else if t.type = TokType.SYMBOL ∧ t.value = ")" then Except.ok (acc, ts)
    else Except.error (ParseFail.perr "Expected ',' or ')' in connection")
end

/-- `Parser.parse_connection`: `Connect ( endpoints ) ;` with `net_name` left
`None`. -/
def parseConnection (fuel : ℕ) (ts : List Token) :
    Except ParseFail (Connection × List Token) :=
  match consumeT TokType.CONNECT "Expected CONNECT" ts with
  | Except.error e => Except.error e
  | Except.ok r1 =>
    match consumeT TokType.SYMBOL "(" r1.2 with
    | Except.error e => Except.error e
    | Except.ok r2 =>
      match parseEndpoints fuel r2.2 [] with
      | Except.error e => Except.error e
      | Except.ok r3 =>
        match consumeT TokType.SYMBOL ")" r3.2 with
        | Except.error e => Except.error e
        | Except.ok r4 =>
          match consumeT TokType.SYMBOL ";" r4.2 with
          | Except.error e => Except.error e
          | Except.ok r5 => Except.ok ({ endpoints := r3.1 }, r5.2)

/-! ## Concrete inputs used by the claim theorems -/

/-- Tokens of `Connect(R1.positive, gnd);` — `gnd` lexes as a plain
IDENTIFIER (the GROUND token pattern is the literal lowercase `ground`). -/
def gndToks : List Token :=
  [tk TokType.CONNECT "Connect", tk TokType.SYMBOL "(", tk TokType.IDENTIFIER "R1",
   tk TokType.SYMBOL ".", tk TokType.IDENTIFIER "positive", tk TokType.SYMBOL ",",
   tk TokType.IDENTIFIER "gnd", tk TokType.SYMBOL ")", tk TokType.SYMBOL ";"]

/-- The connection the parser produces from `gndToks`. -/
def gndConn : Connection :=
  { endpoints := [Endpoint.term "R1" "positive", Endpoint.node "gnd" false] }

/-- A connection with a properly flagged ground endpoint. -/
def flaggedGroundConn : Connection :=
  { endpoints := [Endpoint.term "R1" "positive", Endpoint.node "ground" true] }

/-- A connection with no ground endpoint but the explicit net name `gnd`. -/
def namedGndConn : Connection :=
  { endpoints := [Endpoint.term "R1" "p"], netName := some "gnd" }

/-- First binder of `(R1, p)`: a fresh net via the plain node `x`. -/
def bindA : Connection :=
  { endpoints := [Endpoint.term "R1" "p", Endpoint.node "x" false] }

/-- Second binder of `(R1, p)`: the ground net. -/
def bindB : Connection :=
  { endpoints := [Endpoint.term "R1" "p", Endpoint.node "ground" true] }

/-- `Resistor RL(1000);` as a declaration. -/
def exResistor : CompDecl :=
  { typeName := "Resistor", instanceName := "RL",
    positionalParams := [litN 1000],
    terminals := some ["positive", "negative"] }

/-- A program whose only component-list entry is a for loop over `[1, 2]`
declaring `exResistor` each iteration. -/
def exLoopProgram : Program :=
  { components :=
      [BodyNode.floop "i" (ExprNode.arr [litN 1, litN 2]) [BodyNode.comp exResistor]] }

/-- A program with one component and one connection and no subcircuit
instance. -/
def exPlainProgram : Program :=
  { components := [BodyNode.comp exResistor], connections := [gndConn] }

/-- Tokens of the two-segment endpoint connection `Connect(a.b);`. -/
def connToks2 (a b : String) : List Token :=
  [tk TokType.CONNECT "Connect", tk TokType.SYMBOL "(", tk TokType.IDENTIFIER a,
   tk TokType.SYMBOL ".", tk TokType.IDENTIFIER b,
   tk TokType.SYMBOL ")", tk TokType.SYMBOL ";"]

/-- Tokens of the three-segment endpoint connection `Connect(a.b.c);`. -/
def connToks3 (a b c : String) : List Token :=
  [tk TokType.CONNECT "Connect", tk TokType.SYMBOL "(", tk TokType.IDENTIFIER a,
   tk TokType.SYMBOL ".", tk TokType.IDENTIFIER b, tk TokType.SYMBOL ".",
   tk TokType.IDENTIFIER c, tk TokType.SYMBOL ")", tk TokType.SYMBOL ";"]

/-- Tokens of `Resistor r(k=1, 2);` — a positional parameter after a named
one. -/
def compToksNamedThenPos (r k : String) : List Token :=
  [tk TokType.RESISTOR "Resistor", tk TokType.IDENTIFIER r, tk TokType.SYMBOL "(",
   tk TokType.IDENTIFIER k, tk TokType.SYMBOL "=", tkNum 1 "1", tk TokType.SYMBOL ",",
   tkNum 2 "2", tk TokType.SYMBOL ")", tk TokType.SYMBOL ";"]

/-- Tokens of `Resistor r(x);` — a positional parameter that is a bare
identifier. -/
def compToksIdentPositional (r x : String) : List Token :=
  [tk TokType.RESISTOR "Resistor", tk TokType.IDENTIFIER r, tk TokType.SYMBOL "(",
   tk TokType.IDENTIFIER x, tk TokType.SYMBOL ")", tk TokType.SYMBOL ";"]

/-- Whether a component-list entry is a `SubcircuitInstance`. -/
def isInstNode : BodyNode → Bool
  | BodyNode.inst _ => true
  | _ => false

/-! ## Helper lemmas about the connectivity resolver -/

theorem connectEndpoint_nodeCounter (t : NetNode) (st : ConnState) (ep : Endpoint) :
    (connectEndpoint t st ep).nodeCounter = st.nodeCounter := by
  cases ep with
  | term cn tn => rfl
  | pstr s => simp only [connectEndpoint]; split <;> rfl
  | node n g => rfl

theorem foldl_connectEndpoint_nodeCounter (t : NetNode) (eps : List Endpoint)
    (st : ConnState) :
    (eps.foldl (connectEndpoint t) st).nodeCounter = st.nodeCounter := by
  induction eps generalizing st with
  | nil => rfl
  | cons ep rest ih => rw [List.foldl_cons, ih, connectEndpoint_nodeCounter]

theorem processConnection_nodeCounter (st : ConnState) (c : Connection) :
    (processConnection st c).nodeCounter =
      st.nodeCounter + (if allocatesNew st c then 1 else 0) := by
  simp only [processConnection]
  rw [foldl_connectEndpoint_nodeCounter]
  split <;> simp

theorem connectEndpoint_ground_lookup (t : NetNode) (st : ConnState) (ep : Endpoint)
    (h : lookupA st.nodes "ground" = some groundNode) :
    lookupA (connectEndpoint t st ep).nodes "ground" = some groundNode := by
  cases ep with
  | term cn tn => exact h
  | node n g => exact h
  | pstr s =>
    simp only [connectEndpoint]
    split
    · exact h
    · rename_i hs
      have hne : s ≠ "ground" := by
        intro e; subst e; exact hs (by decide)
      simpa [lookupA, hne] using h

theorem foldl_connectEndpoint_ground_lookup (t : NetNode) (eps : List Endpoint)
    (st : ConnState) (h : lookupA st.nodes "ground" = some groundNode) :
    lookupA ((eps.foldl (connectEndpoint t) st)).nodes "ground" = some groundNode := by
  induction eps generalizing st with
  | nil => exact h
  | cons ep rest ih =>
    rw [List.foldl_cons]
    exact ih _ (connectEndpoint_ground_lookup t st ep h)

theorem processConnection_ground_lookup (st : ConnState) (c : Connection)
    (h : lookupA st.nodes "ground" = some groundNode) :
    lookupA (processConnection st c).nodes "ground" = some groundNode := by
  simp only [processConnection]
  apply foldl_connectEndpoint_ground_lookup
  split
  · rename_i ha
    cases hn : optName c.netName with
    | none => simpa [hn] using h
    | some n =>
      have hnone : lookupA st.nodes n = none := by
        simp only [allocatesNew, Bool.and_eq_true, Bool.not_eq_true',
          Option.isNone_iff_eq_none] at ha
        have h2 := ha.1.2
        rw [hn] at h2
        simpa using h2
      have hne : n ≠ "ground" := by
        intro e; subst e; rw [hnone] at h; exact Option.noConfusion h
      simpa [hn, lookupA, hne] using h
  · exact h

theorem foldl_processConnection_ground_lookup (conns : List Connection) (st : ConnState)
    (h : lookupA st.nodes "ground" = some groundNode) :
    lookupA ((conns.foldl processConnection st)).nodes "ground" = some groundNode := by
  induction conns generalizing st with
  | nil => exact h
  | cons c cs ih => exact ih _ (processConnection_ground_lookup st c h)

theorem buildConnectivity_ground_lookup (conns : List Connection) :
    lookupA (buildConnectivity conns).nodes "ground" = some groundNode :=
  foldl_processConnection_ground_lookup conns initState (by decide)

theorem connectEndpoint_term_lookup_other (t : NetNode) (st : ConnState) (ep : Endpoint)
    (cn tn : String) (h : ep ≠ Endpoint.term cn tn) :
    lookupA (connectEndpoint t st ep).terminalConnections (cn, tn) =
      lookupA st.terminalConnections (cn, tn) := by
  cases ep with
  | term c2 t2 =>
    have hp : (c2, t2) ≠ (cn, tn) := by
      intro e
      injection e with e1 e2
      exact h (by rw [e1, e2])
    simp [connectEndpoint, lookupA, hp]
  | pstr s => simp only [connectEndpoint]; split <;> rfl
  | node n g => rfl

theorem connectEndpoint_term_lookup_self (t : NetNode) (st : ConnState) (cn tn : String) :
    lookupA (connectEndpoint t st (Endpoint.term cn tn)).terminalConnections (cn, tn) =
      some t := by
  simp [connectEndpoint, lookupA]

theorem foldl_connectEndpoint_term_frame (t : NetNode) (eps : List Endpoint)
    (st : ConnState) (cn tn : String) (h : Endpoint.term cn tn ∉ eps) :
    lookupA ((eps.foldl (connectEndpoint t) st)).terminalConnections (cn, tn) =
      lookupA st.terminalConnections (cn, tn) := by
  induction eps generalizing st with
  | nil => rfl
  | cons ep rest ih =>
    have h1 : Endpoint.term cn tn ∉ rest := fun hm => h (List.mem_cons_of_mem _ hm)
    have h2 : ep ≠ Endpoint.term cn tn := fun he => h (by simp [he])
    rw [List.foldl_cons, ih _ h1, connectEndpoint_term_lookup_other t st ep cn tn h2]

theorem foldl_connectEndpoint_term_write (t : NetNode) (eps : List Endpoint)
    (st : ConnState) (cn tn : String) (h : Endpoint.term cn tn ∈ eps) :
    lookupA ((eps.foldl (connectEndpoint t) st)).terminalConnections (cn, tn) = some t := by
  induction eps generalizing st with
  | nil => cases h
  | cons ep rest ih =>
    rw [List.foldl_cons]
    by_cases hr : Endpoint.term cn tn ∈ rest
    · exact ih _ hr
    · have he : ep = Endpoint.term cn tn := by
        rcases List.mem_cons.mp h with h1 | h2
        · exact h1.symm
        · exact absurd h2 hr
      subst he
      rw [foldl_connectEndpoint_term_frame t rest _ cn tn hr]
      exact connectEndpoint_term_lookup_self t st cn tn

theorem processConnection_term_write (st : ConnState) (c : Connection) (cn tn : String)
    (h : Endpoint.term cn tn ∈ c.endpoints) :
    lookupA (processConnection st c).terminalConnections (cn, tn) =
      some (connTarget st c) := by
  simp only [processConnection]
  exact foldl_connectEndpoint_term_write _ _ _ _ _ h

theorem processConnection_term_frame (st : ConnState) (c : Connection) (cn tn : String)
    (h : Endpoint.term cn tn ∉ c.endpoints) :
    lookupA (processConnection st c).terminalConnections (cn, tn) =
      lookupA st.terminalConnections (cn, tn) := by
  simp only [processConnection]
  rw [foldl_connectEndpoint_term_frame _ _ _ _ _ h]
  split <;> rfl

theorem foldl_processConnection_term_frame (ys : List Connection) (st : ConnState)
    (cn tn : String) (h : ∀ c2 ∈ ys, Endpoint.term cn tn ∉ c2.endpoints) :
    lookupA ((ys.foldl processConnection st)).terminalConnections (cn, tn) =
      lookupA st.terminalConnections (cn, tn) := by
  induction ys generalizing st with
  | nil => rfl
  | cons c cs ih =>
    rw [List.foldl_cons, ih _ (fun c2 hm => h c2 (List.mem_cons_of_mem _ hm)),
      processConnection_term_frame st c cn tn (h c (List.mem_cons_self _ _))]

theorem connTarget_alloc (st : ConnState) (c : Connection)
    (h : allocatesNew st c = true) :
    connTarget st c = { id := st.nodeCounter, name := c.netName, isGround := false } := by
  simp only [allocatesNew, Bool.and_eq_true, Bool.not_eq_true',
    Option.isNone_iff_eq_none] at h
  obtain ⟨⟨h1, h2⟩, h3⟩ := h
  simp [connTarget, h1, h2, h3]

theorem allocatedIds_eq_range (st : ConnState) (conns : List Connection) :
    allocatedIds st conns = List.range' st.nodeCounter (allocatedIds st conns).length := by
  induction conns generalizing st with
  | nil => rfl
  | cons c cs ih =>
    by_cases h : allocatesNew st c = true
    · have hc : (processConnection st c).nodeCounter = st.nodeCounter + 1 := by
        rw [processConnection_nodeCounter, if_pos h]
      have hid : (connTarget st c).id = st.nodeCounter := by rw [connTarget_alloc st c h]
      have hrec := ih (processConnection st c)
      rw [hc] at hrec
      simp only [allocatedIds, if_pos h, hid]
      rw [hrec]
      simp [List.range'_succ]
    · have hc : (processConnection st c).nodeCounter = st.nodeCounter := by
        rw [processConnection_nodeCounter, if_neg h, Nat.add_zero]
      have hrec := ih (processConnection st c)
      rw [hc] at hrec
      simpa [allocatedIds, if_neg h] using hrec

/-! ## Claims C1 - C3 -/

/-- C1 counterexample: the parser turns the bare identifier `gnd` in
`Connect(R1.positive, gnd);` into the Node form `Node("gnd", is_ground=False)`,
and the resolver then does *not* force the connection to net 0: the terminal
`R1.positive` is bound to the freshly allocated net 1. -/
theorem c1_counterexample :
    parseConnection 9 gndToks = Except.ok (gndConn, []) ∧
    (Endpoint.node "gnd" false) ∈ gndConn.endpoints ∧
    lookupA (buildConnectivity [gndConn]).terminalConnections ("R1", "positive") =
      some { id := 1, name := none, isGround := false } := ⟨rfl, by decide, rfl⟩

/-- C1 (amended): an endpoint forces a connection to the ground net exactly
when it is a plain *string* spelled `ground`/`gnd`/`0` in any letter case or a
`Node` whose `is_ground` flag is set; for every connection so marked,
whatever connections preceded it, the resolver assigns it the ground node
(net id 0) and binds every `Terminal` endpoint of the connection to net 0.  A
parser-produced `Node` endpoint named `gnd` or `0` without the flag does not
force ground (only the bare lowercase keyword `ground` is flagged by the
parser). -/
theorem c1_ground_aliasing_amended (pre : List Connection) (c : Connection)
    (h : isGroundConnection c = true) :
    connTarget (buildConnectivity pre) c = groundNode ∧
    ∀ cn tn, Endpoint.term cn tn ∈ c.endpoints →
      lookupA (buildConnectivity (pre ++ [c])).terminalConnections (cn, tn) =
        some groundNode := by
  have hg : connTarget (buildConnectivity pre) c = groundNode := by
    simp [connTarget, h, buildConnectivity_ground_lookup pre]
  refine ⟨hg, fun cn tn hm => ?_⟩
  have : buildConnectivity (pre ++ [c]) =
      processConnection (buildConnectivity pre) c := by
    simp [buildConnectivity, List.foldl_append]
  rw [this, processConnection_term_write _ _ _ _ hm, hg]

/-- C1 witness: `Connect(R1.positive, ground)` with the flagged ground node
resolves the connection and the terminal to net 0. -/
theorem c1_ground_aliasing_amended_witness :
    connTarget (buildConnectivity []) flaggedGroundConn = groundNode ∧
    lookupA (buildConnectivity ([] ++ [flaggedGroundConn])).terminalConnections
      ("R1", "positive") = some groundNode :=
  ⟨(c1_ground_aliasing_amended [] flaggedGroundConn (by decide)).1,
   (c1_ground_aliasing_amended [] flaggedGroundConn (by decide)).2 "R1" "positive"
     (by decide)⟩

/-- C2 counterexample: the connection `Connection([Terminal("R1","p")],
net_name="gnd")` has no endpoint denoting ground, yet the resolver assigns it
the ground net: net id 0 is handed to a non-ground connection. -/
theorem c2_counterexample :
    isGroundConnection namedGndConn = false ∧
    lookupA (buildConnectivity [namedGndConn]).terminalConnections ("R1", "p") =
      some groundNode ∧ groundNode.id = 0 := ⟨rfl, rfl, rfl⟩

/-- C2 (amended): net allocation is monotone — across any run the ids handed
out by the new-net branch are exactly 1, 2, 3, ... in processing order
(first allocation gets 1, each subsequent one the next integer, none reused,
none 0).  However a connection with no ground endpoint can still be
*assigned* the existing net 0 by referring to it by name (an explicit
net name, or a plain string node name, already registered to ground). -/
theorem c2_net_allocation_monotone (conns : List Connection) :
    allocatedIds initState conns =
      List.range' 1 (allocatedIds initState conns).length ∧
    ∀ i ∈ allocatedIds initState conns, 1 ≤ i := by
  constructor
  · exact allocatedIds_eq_range initState conns
  · intro i hi
    have h := allocatedIds_eq_range initState conns
    rw [h] at hi
    exact (List.mem_range'_1.mp hi).1

/-- C3: terminal binding is last-write-wins — for any run in which
connection `c` binds `(cn, tn)` and no later connection binds that pair
again, the final terminal table maps `(cn, tn)` to the net selected for `c`
at its point in the run. -/
theorem c3_terminal_last_write_wins (xs ys : List Connection) (c : Connection)
    (cn tn : String) (hin : Endpoint.term cn tn ∈ c.endpoints)
    (hafter : ∀ c2 ∈ ys, Endpoint.term cn tn ∉ c2.endpoints) :
    lookupA (buildConnectivity (xs ++ c :: ys)).terminalConnections (cn, tn) =
      some (connTarget (buildConnectivity xs) c) := by
  have : buildConnectivity (xs ++ c :: ys) =
      ys.foldl processConnection (processConnection (buildConnectivity xs) c) := by
    simp [buildConnectivity, List.foldl_append]
  rw [this, foldl_processConnection_term_frame ys _ cn tn hafter,
    processConnection_term_write _ _ _ _ hin]

/-- C3 witness: `bindA` binds `(R1, p)` to fresh net 1, the later `bindB`
rebinds it to ground; the final table holds the later binding, net 0. -/
theorem c3_terminal_last_write_wins_witness :
    lookupA (buildConnectivity ([bindA] ++ bindB :: [])).terminalConnections ("R1", "p") =
      some (connTarget (buildConnectivity [bindA]) bindB) ∧
    connTarget (buildConnectivity [bindA]) bindB = groundNode :=
  ⟨c3_terminal_last_write_wins [bindA] [] bindB "R1" "p" (by decide)
    (by intro c2 h2; cases h2), rfl⟩

/-! ## Claims C4 - C10 -/

/-- C4 (code bug): for the program whose component list is a single for loop
over `[1, 2]` declaring resistor `RL` each iteration, `expand_macros`
produces exactly the two inlined declarations in order — but
`generate_netlist` discards that result and formats the original unexpanded
component list: formatting the `ForLoop` node raises an `AttributeError`
which the error handler re-raises (a `ForLoop` has no `instance_name`), so
netlist generation crashes and emits no lines at all. -/
theorem c4_netlist_ignores_expansion :
    expandMacros 9 exLoopProgram emptyCtx [] =
      some ([BodyNode.comp exResistor, BodyNode.comp exResistor], []) ∧
    generateNetlist 9 exLoopProgram = none := ⟨rfl, rfl⟩

/-- C5: evaluating a division whose right operand evaluates to (Python) 0
yields positive infinity and appends exactly one diagnostic beyond those of
the operand evaluations; the evaluator is a total function — nothing is
raised, and evaluation of any enclosing expression continues. -/
theorem c5_division_by_zero (ctx : Ctx) (l r : ExprNode) (errs : List String)
    (h : pyEq (evalExpr ctx r (evalExpr ctx l errs).2).1 (Value.num 0) = true) :
    evalExpr ctx (ExprNode.binop l "/" r) errs =
      (Value.infty true,
        (evalExpr ctx r (evalExpr ctx l errs).2).2 ++ ["Division by zero"]) := by
  simp [evalExpr, applyBinaryOp, h]

/-- C5 witness: `5/0` evaluates to +infinity with exactly one diagnostic. -/
theorem c5_division_by_zero_witness :
    evalExpr emptyCtx (ExprNode.binop (litN 5) "/" (litN 0)) [] =
      (Value.infty true, ["Division by zero"]) :=
  (c5_division_by_zero emptyCtx (litN 5) (litN 0) [] rfl).trans rfl

/-- C6 counterexample: the unknown *unary* operator `~` applied to 5 appends
its diagnostic but evaluates to the operand 5, not to 0 as claimed. -/
theorem c6_counterexample :
    evalExpr emptyCtx (ExprNode.unop "~" (litN 5)) [] =
      (Value.num 5, ["Unknown unary operator: ~"]) ∧
    Value.num 5 ≠ Value.num 0 := ⟨rfl, by simp⟩

/-- C6 (amended): an unknown identifier, unknown *binary* operator, or
unknown function name appends one diagnostic and evaluates to 0; an unknown
*unary* operator appends one diagnostic but evaluates to its operand's value,
not 0; evaluation is a total function and always returns a value. -/
theorem c6_unknown_names (ctx : Ctx) (errs : List String) (n bop uop f : String)
    (v l r : Value) (args : List Value)
    (hn : ctx.get n = none)
    (hb : bop ∉ ["+", "-", "*", "/", "**", "^", "||", "&&", "==", "!=", "<", ">",
      "<=", ">="])
    (hu : uop ∉ ["-", "+", "!", "sqrt", "abs"])
    (hf : f ∉ ["sin", "cos", "tan", "log", "log10", "exp", "sqrt", "abs", "min",
      "max", "range"]) :
    evalExpr ctx (ExprNode.ident n) errs =
      (Value.num 0, errs ++ ["Undefined identifier: " ++ n]) ∧
    applyBinaryOp bop l r errs =
      (Value.num 0, errs ++ ["Unknown binary operator: " ++ bop]) ∧
    applyUnaryOp uop v errs = (v, errs ++ ["Unknown unary operator: " ++ uop]) ∧
    callFunction f args errs = (Value.num 0, errs ++ ["Unknown function: " ++ f]) := by
  simp only [List.mem_cons, List.not_mem_nil, or_false, not_or] at hb hu hf
  refine ⟨by simp [evalExpr, hn], ?_, ?_, ?_⟩
  · obtain ⟨b1, b2, b3, b4, b5, b6, b7, b8, b9, b10, b11, b12, b13, b14⟩ := hb
    simp [applyBinaryOp, b1, b2, b3, b4, b5, b6, b7, b8, b9, b10, b11, b12, b13, b14]
  · obtain ⟨u1, u2, u3, u4, u5⟩ := hu
    simp [applyUnaryOp, u1, u2, u3, u4, u5]
  · obtain ⟨f1, f2, f3, f4, f5, f6, f7, f8, f9, f10, f11⟩ := hf
    simp [callFunction, f1, f2, f3, f4, f5, f6, f7, f8, f9, f10, f11]

/-- C6 witness: concrete unknown names (`zz`, `~`, `neg`, `frob`). -/
theorem c6_unknown_names_witness :
    evalExpr emptyCtx (ExprNode.ident "zz") [] =
      (Value.num 0, ["Undefined identifier: zz"]) ∧
    applyBinaryOp "~" (Value.num 1) (Value.num 2) [] =
      (Value.num 0, ["Unknown binary operator: ~"]) ∧
    applyUnaryOp "neg" (Value.num 7) [] =
      (Value.num 7, ["Unknown unary operator: neg"]) ∧
    callFunction "frob" [] [] = (Value.num 0, ["Unknown function: frob"]) :=
  c6_unknown_names emptyCtx [] "zz" "~" "neg" "frob" (Value.num 7) (Value.num 1)
    (Value.num 2) [] rfl (by decide) (by decide) (by decide)

/-- C7: unit normalization — the string literal "1.5k" is annotated with
SI value 1500, "10u" with 1/100000 (= 1e-5), a plain numeric literal passes
through unchanged, and re-running the pass on an already-annotated literal
changes nothing (idempotence). -/
theorem c7_unit_normalization (q : ℚ) (v : LitVal) (a : Annots) :
    (convertLiteral (LitVal.lstr "1.5k") a).siValue = some (LitVal.num 1500) ∧
    (convertLiteral (LitVal.lstr "10u") a).siValue = some (LitVal.num (1 / 100000)) ∧
    (convertLiteral (LitVal.num q) a).siValue = some (LitVal.num q) ∧
    convertLiteral v (convertLiteral v a) = convertLiteral v a := by
  refine ⟨?_, ?_, rfl, ?_⟩
  · have h2 : splitLetterSuffix (stripChars "1.5k".toList) = (['1', '.', '5'], ['k']) := by
      decide
    have h3 : matchesNumber ['1', '.', '5'] = true := by decide
    have h4 : unitMultiplier 'k' = some (10 ^ 3) := rfl
    have h5 : parseDecimal ['1', '.', '5'] =
        (digitsToNat ['1'] : ℚ) + (digitsToNat ['5'] : ℚ) / 10 ^ 1 := rfl
    have h6 : digitsToNat ['1'] = 1 := by decide
    have h7 : digitsToNat ['5'] = 5 := by decide
    simp only [convertLiteral, h2, h3, if_true, h4, h5, h6, h7]
    norm_num
  · have h2 : splitLetterSuffix (stripChars "10u".toList) = (['1', '0'], ['u']) := by decide
    have h3 : matchesNumber ['1', '0'] = true := by decide
    have h4 : unitMultiplier 'u' = some (1 / 10 ^ 6) := rfl
    have h5 : parseDecimal ['1', '0'] = (digitsToNat ['1', '0'] : ℚ) := rfl
    have h6 : digitsToNat ['1', '0'] = 10 := by decide
    simp only [convertLiteral, h2, h3, if_true, h4, h5, h6]
    norm_num
  cases v with
  | num q2 => rfl
  | lstr s =>
    by_cases hm : matchesNumber (splitLetterSuffix (stripChars s.data)).1 = true
    · simp [convertLiteral, hm]
    · simp [convertLiteral, hm]

/-- C8: flattening is the identity on the component and connection lists of
any program whose component list contains no subcircuit instance. -/
theorem c8_flatten_identity (fuel : ℕ) (subs : List (String × Subckt)) (p : Program)
    (h : ∀ n ∈ p.components, isInstNode n = false) :
    ∃ q, flattenProgram fuel subs p = some q ∧
      q.components = p.components ∧ q.connections = p.connections := by
  have ht : ∀ nodes : List BodyNode, (∀ n ∈ nodes, isInstNode n = false) →
      flattenTop fuel subs nodes = some (nodes, []) := by
    intro nodes
    induction nodes with
    | nil => intro _; rfl
    | cons n rest ih =>
      intro hno
      have hn := hno n (List.mem_cons_self _ _)
      have hrest := ih (fun m hm => hno m (List.mem_cons_of_mem _ hm))
      cases n with
      | inst s => simp [isInstNode] at hn
      | comp c => simp [flattenTop, hrest]
      | conn c => simp [flattenTop, hrest]
      | minv nm args => simp [flattenTop, hrest]
      | floop v2 it b => simp [flattenTop, hrest]
  exact ⟨{ p with subcircuitInstances := [] },
    by simp [flattenProgram, ht p.components h], rfl, rfl⟩

/-- C8 witness: a one-component, one-connection program flattens to itself. -/
theorem c8_flatten_identity_witness :
    ∃ q, flattenProgram 3 [] exPlainProgram = some q ∧
      q.components = exPlainProgram.components ∧
      q.connections = exPlainProgram.connections :=
  c8_flatten_identity 3 [] exPlainProgram (by decide)

/-- C9 counterexample: the three-segment dotted endpoint in
`Connect(x.sub.p);` is rejected with a parse error, not parsed into a
terminal named `x.sub`. -/
theorem c9_counterexample :
    parseConnection 9 (connToks3 "x" "sub" "p") =
      Except.error (ParseFail.perr "Expected ',' or ')' in connection") := rfl

/-- C9 (amended): a dotted endpoint supports exactly one dot — `a.b` parses
to `Terminal(a, b)` (component `a`, terminal `b`) — and any further dot, as
in `a.b.c`, raises a parse error: hierarchical terminal references deeper
than two segments are rejected, for all identifier spellings. -/
theorem c9_dotted_endpoints (a b c : String) :
    parseConnection 9 (connToks2 a b) =
      Except.ok ({ endpoints := [Endpoint.term a b] }, []) ∧
    parseConnection 9 (connToks3 a b c) =
      Except.error (ParseFail.perr "Expected ',' or ')' in connection") := ⟨rfl, rfl⟩

/-- C10 counterexample: `Resistor R1(k=1, 2);` — a positional parameter after
a named one — parses successfully into positional `[2]` and named
`[(k, 1)]`; it does not raise a parse error. -/
theorem c10_counterexample :
    parseComponentDeclaration 30 (compToksNamedThenPos "R1" "k") =
      Except.ok ({ typeName := "Resistor", instanceName := "R1",
                   positionalParams := [litN 2], namedParams := [("k", litN 1)],
                   terminals := some ["positive", "negative"] }, []) := rfl

/-- C10 (amended): the parser classifies each parameter by its first token,
not by position — an IDENTIFIER-led parameter is parsed as named and must be
followed by a SYMBOL `=`, anything else is positional, and the two kinds may
come in any order: a positional parameter after a named one parses
successfully, while a bare-identifier positional parameter raises
"Expected '=' after parameter name" even with no named parameter present. -/
theorem c10_parameter_classification (r k x : String) :
    parseComponentDeclaration 30 (compToksNamedThenPos r k) =
      Except.ok ({ typeName := "Resistor", instanceName := r,
                   positionalParams := [litN 2], namedParams := [(k, litN 1)],
                   terminals := some ["positive", "negative"] }, []) ∧
    parseComponentDeclaration 30 (compToksIdentPositional r x) =
      Except.error (ParseFail.perr "Expected '=' after parameter name") := ⟨rfl, rfl⟩

end CircuitDSL
